import Mathlib

/-!
Verification of the NIGHTRIDERS frontend geospatial pipeline.

The development embeds, in Lean, the coordinate-normalization, route
sanitization, viewport, bus-marker projection and polling logic of the
repository's `MapView` components (`frontend/src/components/MapView.jsx`,
the second MapView variant), `App.js` (`LiveTrackingPage.fetchBuses`) and
`EtaView.jsx`.  JavaScript numbers are modelled as `JSNum`
(NaN / signed infinity / an exact rational); JSON-ish runtime values as
`JSValue`.  The claims under study do not depend on binary floating-point
rounding: every comparison they exercise is exact at the inputs involved.
-/

/-- A JavaScript number: `NaN`, a signed infinity (`inf true` is `+∞`),
or a finite value, modelled as an exact rational. -/
inductive JSNum where
  | nan : JSNum
  | inf : Bool → JSNum
  | fin : ℚ → JSNum
deriving DecidableEq, Repr

namespace JSNum

/-- `Number.isNaN`. -/
def isNaN : JSNum → Bool
  | .nan => true
  | _ => false

/-- `Math.abs`. -/
def jsAbs : JSNum → JSNum
  | .nan => .nan
  | .inf _ => .inf true
  | .fin q => .fin |q|

/-- The JavaScript `>` on numbers; any comparison with `NaN` is `false`. -/
def jsGtB : JSNum → JSNum → Bool
  | .nan, _ => false
  | _, .nan => false
  | .inf true, .inf true => false
  | .inf true, _ => true
  | .inf false, _ => false
  | .fin _, .inf true => false
  | .fin _, .inf false => true
  | .fin a, .fin b => decide (b < a)

/-- The JavaScript `<=` on numbers; any comparison with `NaN` is `false`. -/
def jsLeB : JSNum → JSNum → Bool
  | .nan, _ => false
  | _, .nan => false
  | .inf false, _ => true
  | _, .inf true => true
  | .inf true, _ => false
  | _, .inf false => false
  | .fin a, .fin b => decide (a ≤ b)

/-- The JavaScript `<` on numbers; any comparison with `NaN` is `false`. -/
def jsLtB (a b : JSNum) : Bool := jsGtB b a

/-- JavaScript subtraction. -/
def jsSub : JSNum → JSNum → JSNum
  | .nan, _ => .nan
  | _, .nan => .nan
  | .inf p, .inf q => if p = q then .nan else .inf p
  | .inf p, .fin _ => .inf p
  | .fin _, .inf q => .inf (!q)
  | .fin a, .fin b => .fin (a - b)

end JSNum

/-- The whitespace characters stripped by `String.prototype.trim` and by
`Number()`'s own trimming (the ASCII subset that can occur in this
pipeline's JSON payloads). -/
def isJsWs (c : Char) : Bool :=
  c == ' ' || c == '\t' || c == '\n' || c == '\r' || c == '\x0b' || c == '\x0c'

/-- Strip leading and trailing whitespace from a character list. -/
def trimChars (l : List Char) : List Char :=
  ((l.dropWhile isJsWs).reverse.dropWhile isJsWs).reverse

/-- `String.prototype.trim`. -/
def jsTrim (s : String) : String := ⟨trimChars s.data⟩

/-- Maximal leading digit run of a character list: the digits (as values)
and the rest. -/
def takeDigits : List Char → List ℕ × List Char
  | [] => ([], [])
  | c :: r =>
    if c.isDigit then
      let (ds, rest) := takeDigits r
      ((c.toNat - 48) :: ds, rest)
    else ([], c :: r)

/-- Value of a digit run read as an integer part. -/
def digitsToNat (ds : List ℕ) : ℕ := ds.foldl (fun a d => 10 * a + d) 0

/-- Value of a digit run read as a fractional part (after the dot). -/
def fracVal (ds : List ℕ) : ℚ := ds.foldr (fun d a => ((d : ℚ) + a) / 10) 0

/-- Parse an optional exponent part (`e`/`E`, optional sign, digits) that
must consume the whole remainder; returns the multiplier. -/
def parseExpPart : List Char → Option ℚ
  | [] => some 1
  | c :: r =>
    if c == 'e' || c == 'E' then
      let (neg, r2) : Bool × List Char :=
        match r with
        | '+' :: t => (false, t)
        | '-' :: t => (true, t)
        | t => (false, t)
      let (ds, r3) := takeDigits r2
      if ds.isEmpty || !r3.isEmpty then none
      else some (if neg then ((10 : ℚ) ^ digitsToNat ds)⁻¹ else (10 : ℚ) ^ digitsToNat ds)
    else none

/-- Parse an unsigned decimal numeral (`digits`, `digits.digits?`,
`.digits`, each with optional exponent), requiring full consumption. -/
def parseUnsignedDec (l : List Char) : Option ℚ :=
  let (ip, r1) := takeDigits l
  match r1 with
  | '.' :: r2 =>
    let (fp, r3) := takeDigits r2
    if ip.isEmpty && fp.isEmpty then none
    else
      match parseExpPart r3 with
      | some m => some (((digitsToNat ip : ℚ) + fracVal fp) * m)
      | none => none
  | r =>
    if ip.isEmpty then none
    else
      match parseExpPart r with
      | some m => some ((digitsToNat ip : ℚ) * m)
      | none => none

/-- The JavaScript `Number(string)` conversion, for the decimal and
`Infinity` forms of its grammar (hex/octal/binary literals do not occur in
this pipeline's payloads): trim whitespace, the empty string is `0`,
otherwise an optionally signed `Infinity` or decimal numeral; anything
else is `NaN`. -/
def strToNumber (s : String) : JSNum :=
  let l := trimChars s.data
  if l.isEmpty then .fin 0
  else
    let (neg, l2) : Bool × List Char :=
      match l with
      | '+' :: t => (false, t)
      | '-' :: t => (true, t)
      | t => (false, t)
    if l2 = "Infinity".data then .inf !neg
    else
      match parseUnsignedDec l2 with
      | some q => .fin (if neg then -q else q)
      | none => .nan

/-- A JSON-ish runtime value as it reaches the normalization code:
`undefined`, `null`, a number, a string, or an object (an association
list of fields).  Arrays do not occur among the coordinate fields this
pipeline reads. -/
inductive JSValue where
  | undef : JSValue
  | vNull : JSValue
  | vNum : JSNum → JSValue
  | vStr : String → JSValue
  | vObj : List (String × JSValue) → JSValue

namespace JSValue

/-- Strict-equality test against `undefined` (`v === undefined`). -/
def isUndef : JSValue → Bool
  | .undef => true
  | _ => false

/-- Property access `v[key]` on the values above: first matching field of
an object, `undefined` otherwise (JS property access on primitives yields
`undefined`; access on `null`/`undefined` is guarded out before every use
in the source). -/
def getField : JSValue → String → JSValue
  | .vObj fields, k => go fields k
  | _, _ => .undef
where go : List (String × JSValue) → String → JSValue
  | [], _ => .undef
  | (k', v) :: rest, k => if k' = k then v else go rest k

/-- The `??` operator: take the right operand when the left is
`undefined` or `null`. -/
def nullish (a b : JSValue) : JSValue :=
  match a with
  | .undef => b
  | .vNull => b
  | v => v

/-- JavaScript truthiness (`!raw` is the negation of this). -/
def isTruthy : JSValue → Bool
  | .undef => false
  | .vNull => false
  | .vNum .nan => false
  | .vNum (.fin q) => decide (q ≠ 0)
  | .vNum (.inf _) => true
  | .vStr s => !s.isEmpty
  | .vObj _ => true

/-- The `typeof` operator (note `typeof null === "object"`). -/
def typeofStr : JSValue → String
  | .undef => "undefined"
  | .vNull => "object"
  | .vNum _ => "number"
  | .vStr _ => "string"
  | .vObj _ => "object"

/-- The JavaScript `Number(value)` coercion on these value forms:
`Number(undefined)` is `NaN`, `Number(null)` is `0`, a plain object
stringifies to `"[object Object]"` and hence coerces to `NaN`. -/
def toNumber : JSValue → JSNum
  | .undef => .nan
  | .vNull => .fin 0
  | .vNum n => n
  | .vStr s => strToNumber s
  | .vObj _ => .nan

end JSValue

open JSValue JSNum

/-- `typeof v === "string" ? v.trim() : v` (MapView line 51/52's trim
step). -/
def trimIfString : JSValue → JSValue
  | .vStr s => .vStr (jsTrim s)
  | v => v

/-- The source's two-line coercion `lat = typeof lat === "string" ?
lat.trim() : lat; lat = Number(lat)`. -/
def jsCoerce (v : JSValue) : JSNum := (trimIfString v).toNumber

/-- `raw.lat ?? raw["lat "] ?? raw["latitude"] ?? raw["Latitude"] ??
raw["Lat"]` (MapView line 37). -/
def resolveLat (raw : JSValue) : JSValue :=
  nullish (getField raw "lat")
    (nullish (getField raw "lat ")
      (nullish (getField raw "latitude")
        (nullish (getField raw "Latitude") (getField raw "Lat"))))

/-- `raw.lng ?? raw["lng "] ?? raw["longitude"] ?? raw["Longitude"] ??
raw["Lng"]` (MapView line 38). -/
def resolveLng (raw : JSValue) : JSValue :=
  nullish (getField raw "lng")
    (nullish (getField raw "lng ")
      (nullish (getField raw "longitude")
        (nullish (getField raw "Longitude") (getField raw "Lng"))))

/-- A produced point: the `{lat, lng}` object returned by
`normalizePoint` (always finite in practice; see the bounds checks). -/
structure GeoPoint where
  lat : JSNum
  lng : JSNum
deriving DecidableEq, Repr

/-- MapView lines 50–67: coerce the two resolved values to numbers,
reject `NaN`s, apply the single swap heuristic, and bounds-check.
This is the tail of `normalizePoint` after key resolution and the
nested-object fallback. -/
def validateNums (lat lng : JSNum) : Option GeoPoint :=
  if lat.isNaN = true ∨ lng.isNaN = true then none
  else
    let p : JSNum × JSNum :=
      if jsGtB lat.jsAbs (.fin 90) = true ∧ jsLeB lng.jsAbs (.fin 90) = true
      then (lng, lat) else (lat, lng)
    if jsGtB p.1.jsAbs (.fin 90) = true ∨ jsGtB p.2.jsAbs (.fin 180) = true then none
    else some ⟨p.1, p.2⟩

/-- Coercion step applied to both resolved field values, then
`validateNums`. -/
def coerceAndValidate (lv lgv : JSValue) : Option GeoPoint :=
  validateNums (jsCoerce lv) (jsCoerce lgv)

/-- `normalizePoint` (MapView lines 33–68).  The guard
`!raw || typeof raw !== "object"` admits exactly non-null objects
(`null` is falsy).  The nested-object fallback (lines 44–48) fires when
the resolved latitude is `undefined` and the resolved longitude is an
object; in the one corner where that longitude is `null` (JS `typeof
null === "object"`) the original code would throw a `TypeError` on
`lng.lat` — here field access on `null` yields `undefined` and the
record degrades to `null`; no claim exercises that corner. -/
def normalizePoint (raw : JSValue) : Option GeoPoint :=
  if raw.isTruthy = false ∨ raw.typeofStr ≠ "object" then none
  else
    let rawLat := resolveLat raw
    let rawLng := resolveLng raw
    if rawLat.isUndef = true ∧ rawLng.isUndef = false ∧ rawLng.typeofStr = "object" then
      coerceAndValidate (getField rawLng "lat") (getField rawLng "lng")
    else
      coerceAndValidate rawLat rawLng

/-- The dedup epsilon, `1e-6` degrees (MapView line 106), written as the
exact rational `1 / 1000000`. -/
def epsDeg : JSNum := .fin (mkRat 1 1000000)

/-- The dedup comparison of MapView line 106:
`Math.abs(prev.lat - p.lat) < 1e-6 && Math.abs(prev.lng - p.lng) < 1e-6`. -/
def nearEps (prev p : GeoPoint) : Bool :=
  jsLtB (jsSub prev.lat p.lat).jsAbs epsDeg && jsLtB (jsSub prev.lng p.lng).jsAbs epsDeg

/-- The dedup filter's callback (MapView lines 103–107): the element at
index `i` of `arr` is kept when `i === 0`, or when it is not
epsilon-close to `arr[i - 1]` — the previous element of the normalized
array, whether or not that element was itself kept. -/
def keepIndex (arr : List GeoPoint) (i : ℕ) (p : GeoPoint) : Bool :=
  if i = 0 then true
  else
    match arr[i - 1]? with
    | some prev => !nearEps prev p
    | none => true

/-- `.filter((p, i, arr) => ...)` of MapView lines 103–107, applied to
the normalized array. -/
def dedupConsecutive (arr : List GeoPoint) : List GeoPoint :=
  (arr.enum.filter (fun ip => keepIndex arr ip.1 ip.2)).map Prod.snd

/-- The whole `routeCoords` sanitization body (MapView lines 99–108):
`coordinates.map(normalizePoint).filter(Boolean)` followed by the
consecutive-duplicate filter. -/
def sanitize (coords : List JSValue) : List GeoPoint :=
  dedupConsecutive ((coords.map normalizePoint).filterMap id)

/-- `routeCoords` (MapView lines 97–109): `[]` when there is no selected
route or its `coordinates` is not an array, else the sanitized list. -/
def routeCoords (route : Option (List JSValue)) : List GeoPoint :=
  match route with
  | none => []
  | some coords => sanitize coords

/-- An equivalent pairwise description of the dedup pass: keep the head,
then keep each element exactly when it is not epsilon-close to the
immediately preceding element of the input (the comparison point always
advances, even past dropped elements).  Used to characterize
`dedupConsecutive`. -/
def dedupPairGo (prev : GeoPoint) : List GeoPoint → List GeoPoint
  | [] => []
  | c :: l => if nearEps prev c then dedupPairGo c l else c :: dedupPairGo c l

/-- Head-keeping wrapper of `dedupPairGo`. -/
def dedupPair : List GeoPoint → List GeoPoint
  | [] => []
  | p :: l => p :: dedupPairGo p l

/-- `center` (MapView line 115): the first sanitized coordinate, or the
fixed default anchor `[12.8251353, 77.5148474]` when the polyline is
empty (`routeCoords.length` is falsy exactly on the empty list). -/
def resolveCenter (polyline : List GeoPoint) : JSNum × JSNum :=
  match polyline with
  | [] => (.fin (12.8251353 : ℚ), .fin (77.5148474 : ℚ))
  | p :: _ => (p.lat, p.lng)

/-- A raw live-bus record as consumed by the marker pipeline (the other
backend fields are carried through the spread `{...b}` unchanged and are
irrelevant to projection). -/
structure RawBus where
  bus_id : String
  latitude : JSValue
  longitude : JSValue

/-- A projected bus marker position. -/
structure BusMarker where
  bus_id : String
  latitude : JSNum
  longitude : JSNum
deriving DecidableEq, Repr

/-- The per-record body of MapView lines 133–139: coerce both
coordinates with `Number(...)`, return `null` when either is `NaN`,
else the record with numeric coordinates. -/
def coerceBus (b : RawBus) : Option BusMarker :=
  let lat := b.latitude.toNumber
  let lng := b.longitude.toNumber
  if lat.isNaN || lng.isNaN then none
  else some ⟨b.bus_id, lat, lng⟩

/-- Marker icon classification (MapView lines 29–30). -/
inductive MarkerIcon where
  | highlightIcon : MarkerIcon
  | defaultIcon : MarkerIcon
deriving DecidableEq, Repr

/-- `rawBuses.map(...).filter(Boolean)` (MapView lines 132–140). -/
def projectBuses (bs : List RawBus) : List BusMarker :=
  (bs.map coerceBus).filterMap id

/-- The icon choice of MapView line 142:
`bus.bus_id === "V2BMTC" ? HIGHLIGHT_ICON : DEFAULT_ICON`. -/
def markerIconFor (m : BusMarker) : MarkerIcon :=
  if m.bus_id = "V2BMTC" then .highlightIcon else .defaultIcon

/-- The rendered marker list (MapView lines 131–143): each projected bus
paired with its icon classification. -/
def renderMarkers (bs : List RawBus) : List (BusMarker × MarkerIcon) :=
  (projectBuses bs).map (fun m => (m, markerIconFor m))

/-- The outcome of one `fetch`: a network failure, or an HTTP response
with its status and the result of parsing its body as JSON (`none` when
the body is not valid JSON). -/
inductive FetchOutcome (α : Type) where
  | netError : FetchOutcome α
  | response : ℕ → Option α → FetchOutcome α

/-- One tick of the fetch-chain pollers
(`fetch(...).then(r => r.json()).then(apply).catch(...)`, EtaView lines
16–22 and MapView lines 79–82): a network error or a body that fails to
parse rejects into `.catch`, leaving the stored data unchanged; a
response whose body parses is applied unconditionally — the HTTP status
is never inspected. -/
def fetchChainApply {α : Type} (o : FetchOutcome α) (data : Option α) : Option α :=
  match o with
  | .netError => data
  | .response _ none => data
  | .response _ (some a) => some a

/-- A sequence of poll ticks of the fetch-chain poller: each scheduled
tick runs regardless of earlier failures (`setInterval` is unaffected by
a rejected promise), so the run is a plain fold. -/
def fetchChainRun {α : Type} (l : List (FetchOutcome α)) (d : Option α) : Option α :=
  l.foldl (fun acc o => fetchChainApply o acc) d

/-- The payload a fetch-chain tick applies, if any: a response body that
parsed as JSON, at any HTTP status. -/
def parsedBody {α : Type} : FetchOutcome α → Option α
  | .response _ (some a) => some a
  | _ => none

/-- One tick of the axios-based poller (`fetchBuses`, App.js lines
188–195): `axios.get` rejects on a network error or a non-2xx status and
the `catch` block leaves `buses` unchanged; on success `setBuses`
replaces the data.  Modelled with `Except`: `.error` is the caught
rejection. -/
def axiosApply {α : Type} (e : Except Unit α) (data : Option α) : Option α :=
  match e with
  | .error _ => data
  | .ok a => some a

/-- A sequence of poll ticks of the axios-based poller. -/
def axiosRun {α : Type} (l : List (Except Unit α)) (d : Option α) : Option α :=
  l.foldl (fun acc e => axiosApply e acc) d

/-- The payload an axios tick applies, if any. -/
def okPayload {α : Type} : Except Unit α → Option α
  | .ok a => some a
  | .error _ => none

/-- An event of the polling component's lifetime: a timer tick (issuing
one request), the completion of the request issued by the `req`-th tick,
or the effect cleanup (`clearInterval`). -/
inductive PollEvent (α : Type) where
  | tick : PollEvent α
  | complete : ℕ → Except Unit α → PollEvent α
  | cancel : PollEvent α

/-- Observable state of the polling component: whether the interval is
still scheduled, how many requests have been issued, the currently
displayed payload, and the log of state-setter (`setBuses` /
`setEtaData`) invocations. -/
structure PollerState (α : Type) where
  timerActive : Bool
  issued : ℕ
  data : Option α
  applied : List α

/-- The initial mount state. -/
def pollInit {α : Type} : PollerState α := ⟨true, 0, none, []⟩

/-- One event step of the poller as the source implements it
(App.js lines 182–195, EtaView lines 13–30): a tick issues a request only
while the interval is scheduled; `cancel` is the cleanup
`clearInterval(interval)` and stops only the timer; a completion's
success handler runs unconditionally — the code attaches no sequence
number, cancellation flag, or abort signal to in-flight requests, so a
completion replaces the displayed data no matter which request it
belongs to and no matter whether cleanup already ran. -/
def pollStep {α : Type} (s : PollerState α) (e : PollEvent α) : PollerState α :=
  match e with
  | .tick => if s.timerActive then { s with issued := s.issued + 1 } else s
  | .complete _ o =>
    match o with
    | .ok a => { s with data := some a, applied := s.applied ++ [a] }
    | .error _ => s
  | .cancel => { s with timerActive := false }

/-- Run the poller over an event trace from the mount state. -/
def runPoller {α : Type} (events : List (PollEvent α)) : PollerState α :=
  events.foldl pollStep pollInit

/-- C8: `resolveCenter` on the empty polyline is the fixed default anchor
`(12.8251353, 77.5148474)`, and on any non-empty polyline it is the
polyline's first point (not a centroid). -/
theorem resolveCenter_first_or_default :
    resolveCenter [] = (JSNum.fin (12.8251353 : ℚ), JSNum.fin (77.5148474 : ℚ))
    ∧ ∀ (p : GeoPoint) (l : List GeoPoint), resolveCenter (p :: l) = (p.lat, p.lng) :=
  ⟨rfl, fun _ _ => rfl⟩

/-- C10: a raw coordinate object whose `lat` and `lng` fields are empty
or whitespace-only strings normalizes to the point `{lat: 0, lng: 0}`
rather than being rejected: trimming yields the empty string, which
`Number()` maps to `0`, and `0` passes both the `NaN` check and the
bounds check. -/
theorem normalize_blank_strings (s t : String)
    (hs : jsTrim s = "") (ht : jsTrim t = "") :
    normalizePoint (.vObj [("lat", .vStr s), ("lng", .vStr t)]) =
      some ⟨JSNum.fin 0, JSNum.fin 0⟩ := by
  have hres : resolveLat (.vObj [("lat", .vStr s), ("lng", .vStr t)]) = .vStr s := rfl
  have hres' : resolveLng (.vObj [("lat", .vStr s), ("lng", .vStr t)]) = .vStr t := rfl
  simp only [normalizePoint, hres, hres', isTruthy, typeofStr, isUndef]
  rw [if_neg (by decide), if_neg (by decide)]
  simp only [coerceAndValidate, jsCoerce, trimIfString, toNumber, hs, ht]
  decide

/-- Closed instance of `normalize_blank_strings` at `{lat: "", lng: " "}`. -/
theorem normalize_blank_strings_witness :
    normalizePoint (.vObj [("lat", .vStr ""), ("lng", .vStr " ")]) =
      some ⟨JSNum.fin 0, JSNum.fin 0⟩ :=
  normalize_blank_strings "" " " (by decide) (by decide)

/-- The swap-then-bounds-check tail of `normalizePoint` on two finite
resolved numbers with `|lat| > 90` and `|lng| ≤ 90`: one swap happens,
and the swapped pair is returned iff it passes the final bounds check. -/
theorem validateNums_swap_char (la ln : ℚ) (h1 : 90 < |la|) (h2 : |ln| ≤ 90) :
    validateNums (.fin la) (.fin ln) =
      if |ln| ≤ 90 ∧ |la| ≤ 180 then some ⟨.fin ln, .fin la⟩ else none := by
  have hgt : jsGtB (JSNum.fin la).jsAbs (.fin 90) = true := by
    simp only [JSNum.jsAbs, JSNum.jsGtB, decide_eq_true_eq]
    exact h1
  have hle : jsLeB (JSNum.fin ln).jsAbs (.fin 90) = true := by
    simp only [JSNum.jsAbs, JSNum.jsLeB, decide_eq_true_eq]
    exact h2
  have hng : jsGtB (JSNum.fin ln).jsAbs (.fin 90) = false := by
    simp only [JSNum.jsAbs, JSNum.jsGtB, decide_eq_false_iff_not]
    exact not_lt.mpr h2
  simp only [validateNums]
  rw [if_neg (by simp [JSNum.isNaN])]
  have hswap :
      (if (JSNum.fin la).jsAbs.jsGtB (.fin 90) = true ∧ (JSNum.fin ln).jsAbs.jsLeB (.fin 90) = true
        then ((JSNum.fin ln : JSNum), (JSNum.fin la : JSNum))
        else (JSNum.fin la, JSNum.fin ln)) = (JSNum.fin ln, JSNum.fin la) :=
    if_pos ⟨hgt, hle⟩
  rw [hswap]
  dsimp only
  by_cases hb : |la| ≤ 180
  · have hc1 : ¬((JSNum.fin ln).jsAbs.jsGtB (.fin 90) = true
        ∨ (JSNum.fin la).jsAbs.jsGtB (.fin 180) = true) := by
      rintro (hc | hc)
      · rw [hng] at hc
        exact Bool.false_ne_true hc
      · simp only [JSNum.jsAbs, JSNum.jsGtB, decide_eq_true_eq] at hc
        exact absurd hc (not_lt.mpr hb)
    rw [if_neg hc1, if_pos ⟨h2, hb⟩]
  · have hc2 : (JSNum.fin ln).jsAbs.jsGtB (.fin 90) = true
        ∨ (JSNum.fin la).jsAbs.jsGtB (.fin 180) = true := by
      right
      simp only [JSNum.jsAbs, JSNum.jsGtB, decide_eq_true_eq]
      exact not_le.mp hb
    rw [if_pos hc2, if_neg (fun h => hb h.2)]

/-- C2: for a raw coordinate whose resolved latitude and longitude
coerce to finite numbers with `|lat| > 90` and `|lng| ≤ 90`,
`normalizePoint` swaps the two values exactly once and returns the
swapped pair exactly when it satisfies the final bounds
`|lat| ≤ 90 ∧ |lng| ≤ 180` (equivalently, when the original latitude is
at most `180` in magnitude), and `null` otherwise. -/
theorem normalize_swap_heuristic (f : List (String × JSValue)) (la ln : ℚ)
    (hla : jsCoerce (resolveLat (.vObj f)) = .fin la)
    (hln : jsCoerce (resolveLng (.vObj f)) = .fin ln)
    (h1 : 90 < |la|) (h2 : |ln| ≤ 90) :
    normalizePoint (.vObj f) =
      if |ln| ≤ 90 ∧ |la| ≤ 180 then some ⟨.fin ln, .fin la⟩ else none := by
  have hne : (resolveLat (.vObj f)).isUndef = false := by
    cases h : resolveLat (.vObj f)
    · rw [h] at hla
      simp [jsCoerce, trimIfString, toNumber] at hla
    all_goals rfl
  simp only [normalizePoint, isTruthy, typeofStr]
  rw [if_neg (by decide)]
  rw [if_neg (fun hc => Bool.false_ne_true (hne ▸ hc.1))]
  rw [coerceAndValidate, hla, hln]
  exact validateNums_swap_char la ln h1 h2

/-- Closed instance of `normalize_swap_heuristic` at
`{lat: 95, lng: 50}`: the transposed record normalizes to the swapped
point `(50, 95)`. -/
theorem normalize_swap_heuristic_witness :
    normalizePoint (.vObj [("lat", .vNum (.fin 95)), ("lng", .vNum (.fin 50))]) =
      some ⟨.fin 50, .fin 95⟩ := by
  have h := normalize_swap_heuristic
    [("lat", .vNum (.fin 95)), ("lng", .vNum (.fin 50))] 95 50
    (by decide) (by decide) (by decide) (by decide)
  rw [h, if_pos (by constructor <;> decide)]

/-- The record predicate of the marker pipeline: both coordinates coerce
to something other than `NaN` (the only test the code performs). -/
def busCoordsOk (b : RawBus) : Bool :=
  !(b.latitude.toNumber.isNaN || b.longitude.toNumber.isNaN)

/-- `projectBuses` as a filter-then-map: a record survives exactly when
neither coordinate coerces to `NaN`, and the survivors keep their
original order with numeric coordinates. -/
theorem projectBuses_filter_eq (bs : List RawBus) :
    projectBuses bs =
      (bs.filter busCoordsOk).map
        (fun b => ⟨b.bus_id, b.latitude.toNumber, b.longitude.toNumber⟩) := by
  induction bs with
  | nil => rfl
  | cons b bs ih =>
    by_cases h : (b.latitude.toNumber.isNaN || b.longitude.toNumber.isNaN) = true
    · have hcb : coerceBus b = none := by simp [coerceBus, h]
      have hbk : busCoordsOk b = false := by simp [busCoordsOk, h]
      simp only [projectBuses, List.map_cons, List.filterMap_cons, hcb,
        List.filter_cons, hbk, id]
      exact ih
    · simp only [Bool.not_eq_true] at h
      have hcb : coerceBus b =
          some ⟨b.bus_id, b.latitude.toNumber, b.longitude.toNumber⟩ := by
        simp [coerceBus, h]
      have hbk : busCoordsOk b = true := by simp [busCoordsOk, h]
      simp only [projectBuses, List.map_cons, List.filterMap_cons, hcb,
        List.filter_cons, hbk, id, List.map_cons]
      exact congrArg _ ih

/-- C7 (amended): `project` keeps exactly those raw bus entries whose
latitude and longitude fields do not coerce to `NaN`.  Finiteness is not
checked: only `Number.isNaN` is tested, so coordinates that coerce to an
infinite value pass the filter and produce a marker. -/
theorem project_keeps_nonNaN (bs : List RawBus) :
    projectBuses bs =
      (bs.filter busCoordsOk).map
        (fun b => ⟨b.bus_id, b.latitude.toNumber, b.longitude.toNumber⟩) :=
  projectBuses_filter_eq bs

/-- C7 counterexample: a record whose latitude coerces to `+∞` (string
`"Infinity"`) is not filtered out — it produces a marker with an
infinite, non-finite coordinate, contradicting the claim that entries
not coercing to finite numbers are dropped. -/
theorem project_keeps_infinite_coordinate :
    projectBuses [⟨"X", .vStr "Infinity", .vNum (.fin 77)⟩]
      = [⟨"X", .inf true, .fin 77⟩]
    ∧ (JSNum.inf true).isNaN = false := by
  constructor
  · rfl
  · rfl

/-- Unfolding of `renderMarkers` over a cons cell, by cases on whether
the head record survives coercion. -/
theorem renderMarkers_cons (b : RawBus) (bs : List RawBus) :
    renderMarkers (b :: bs) =
      match coerceBus b with
      | none => renderMarkers bs
      | some m => (m, markerIconFor m) :: renderMarkers bs := by
  simp only [renderMarkers, projectBuses, List.map_cons, List.filterMap_cons]
  cases coerceBus b
  · rfl
  · rfl

/-- C6 (amended): every rendered marker whose record bears the
distinguished identifier `"V2BMTC"` is classified with the highlight
icon, and every other rendered marker gets the default icon; the number
of highlighted markers equals the number of surviving raw records whose
`bus_id` is `"V2BMTC"` (so it is one exactly when one such record
survives — duplicate `"V2BMTC"` records each produce their own
highlighted marker, and a `"V2BMTC"` record with non-coercible
coordinates produces none). -/
theorem highlight_counts (bs : List RawBus) :
    ((renderMarkers bs).filter (fun mi => decide (mi.2 = MarkerIcon.highlightIcon))).length =
      (bs.filter (fun b => decide (b.bus_id = "V2BMTC") && busCoordsOk b)).length
    ∧ ((renderMarkers bs).filter (fun mi => decide (mi.2 = MarkerIcon.defaultIcon))).length =
      (bs.filter (fun b => !decide (b.bus_id = "V2BMTC") && busCoordsOk b)).length := by
  induction bs with
  | nil => exact ⟨rfl, rfl⟩
  | cons b bs ih =>
    obtain ⟨ih1, ih2⟩ := ih
    rw [renderMarkers_cons]
    by_cases hv : busCoordsOk b = true
    · have hv2 : (b.latitude.toNumber.isNaN || b.longitude.toNumber.isNaN) = false := by
        simpa [busCoordsOk] using hv
      have hcb : coerceBus b =
          some ⟨b.bus_id, b.latitude.toNumber, b.longitude.toNumber⟩ := by
        simp [coerceBus, hv2]
      rw [hcb]
      by_cases hid : b.bus_id = "V2BMTC"
      · refine ⟨?_, ?_⟩ <;>
          simp [List.filter_cons, markerIconFor, hid, hv, ih1, ih2]
      · refine ⟨?_, ?_⟩ <;>
          simp [List.filter_cons, markerIconFor, hid, hv, ih1, ih2]
    · have hv' : busCoordsOk b = false := by
        cases h : busCoordsOk b
        · rfl
        · exact absurd h hv
      have hv2 : (b.latitude.toNumber.isNaN || b.longitude.toNumber.isNaN) = true := by
        cases h : (b.latitude.toNumber.isNaN || b.longitude.toNumber.isNaN)
        · exact absurd (by simp [busCoordsOk, h]) hv
        · rfl
      have hcb : coerceBus b = none := by simp [coerceBus, hv2]
      rw [hcb]
      refine ⟨?_, ?_⟩ <;> simp [List.filter_cons, hv', ih1, ih2]

/-- C6 counterexample: two raw records both carrying `bus_id "V2BMTC"`
(with valid coordinates) are both rendered and both receive the
highlight icon — two highlighted markers, not exactly one, although the
distinguished identifier is present among the results. -/
theorem highlight_duplicate_counterexample :
    ((renderMarkers
        [⟨"V2BMTC", .vNum (.fin 12), .vNum (.fin 77)⟩,
         ⟨"V2BMTC", .vNum (.fin 12), .vNum (.fin 77)⟩]).filter
      (fun mi => decide (mi.2 = MarkerIcon.highlightIcon))).length = 2 := by
  rfl

/-- `getLast?` of a cons, eliminated against a fallback: pushing one
element moves it into the fallback slot. -/
theorem getLast_cons_elim {α : Type} (a : α) (xs : List α) (d : Option α) :
    ((a :: xs).getLast?).elim d some = (xs.getLast?).elim (some a) some := by
  cases xs with
  | nil => rfl
  | cons b t =>
    rw [List.getLast?_cons_cons]
    obtain ⟨x, hx⟩ := Option.isSome_iff_exists.mp
      (List.getLast?_isSome.mpr (by simp) : ((b :: t).getLast?).isSome)
    rw [hx]
    rfl

/-- The fetch-chain poller run equals "the payload of the last tick that
applied one, else the initial data": failed ticks (network errors and
unparseable bodies) leave the data untouched and do not stop the fold. -/
theorem fetchChainRun_char {α : Type} (l : List (FetchOutcome α)) (d : Option α) :
    fetchChainRun l d = ((l.filterMap parsedBody).getLast?).elim d some := by
  induction l generalizing d with
  | nil => rfl
  | cons o l ih =>
    cases o with
    | netError =>
      simpa [fetchChainRun, fetchChainApply, parsedBody, List.filterMap_cons] using ih d
    | response s b =>
      cases b with
      | none =>
        simpa [fetchChainRun, fetchChainApply, parsedBody, List.filterMap_cons] using ih d
      | some a =>
        have : fetchChainRun (FetchOutcome.response s (some a) :: l) d
            = fetchChainRun l (some a) := rfl
        rw [this, ih (some a)]
        have hfm : (FetchOutcome.response s (some a) :: l).filterMap parsedBody
            = a :: l.filterMap parsedBody := by
          simp [parsedBody, List.filterMap_cons]
        rw [hfm, getLast_cons_elim]

/-- The axios poller run equals "the payload of the last successful tick,
else the initial data": each caught rejection leaves the data untouched
and does not stop the fold. -/
theorem axiosRun_char {α : Type} (l : List (Except Unit α)) (d : Option α) :
    axiosRun l d = ((l.filterMap okPayload).getLast?).elim d some := by
  induction l generalizing d with
  | nil => rfl
  | cons e l ih =>
    cases e with
    | error u =>
      simpa [axiosRun, axiosApply, okPayload, List.filterMap_cons] using ih d
    | ok a =>
      have : axiosRun (Except.ok a :: l) d = axiosRun l (some a) := rfl
      rw [this, ih (some a)]
      have hfm : (Except.ok a :: l).filterMap okPayload = a :: l.filterMap okPayload := by
        simp [okPayload, List.filterMap_cons]
      rw [hfm, getLast_cons_elim]

/-- C4 (amended): in both pollers, every tick that fails — a network
error or an unparseable body in the fetch-chain pollers; any rejection
(network error or non-2xx) in the axios poller — is caught at the poller
boundary, leaves the stored last good payload unchanged, and does not
prevent later ticks from applying their results: the final payload is
that of the last applying tick, or the initial payload when none
applied.  The fetch-chain pollers, however, never inspect the HTTP
status, so a non-2xx response with a parseable JSON body is *not* a
failure there (see the counterexample). -/
theorem poll_failures_preserve_payload {α : Type} (l : List (FetchOutcome α))
    (l2 : List (Except Unit α)) (d d2 : Option α) :
    fetchChainRun l d = ((l.filterMap parsedBody).getLast?).elim d some
    ∧ axiosRun l2 d2 = ((l2.filterMap okPayload).getLast?).elim d2 some :=
  ⟨fetchChainRun_char l d, axiosRun_char l2 d2⟩

/-- C4 counterexample: in the fetch-chain poller a tick answered with
HTTP 404 and a parseable JSON error body is not treated as a failure —
it replaces the stored last good payload `7` with the error payload `9`,
contradicting the claim that a non-2xx tick leaves the payload
unchanged. -/
theorem non2xx_overwrites_payload :
    fetchChainRun [FetchOutcome.response 404 (some 9)] (some 7) = some 9
    ∧ fetchChainRun [FetchOutcome.response 404 (some 9)] (some 7) ≠ some (7 : ℕ) := by
  exact ⟨rfl, by decide⟩

/-- C3: the completion handlers carry no sequence number and perform no
staleness comparison — `setBuses(response.data)` runs for every
resolution.  On the trace where the request of tick 0 (payload `1`)
resolves after the request of tick 1 (payload `2`) already completed,
the displayed payload is the *older* request's `1`, not the newer
request's `2`. -/
theorem stale_completion_overwrites_newer :
    (runPoller [PollEvent.tick, PollEvent.tick,
      PollEvent.complete 1 (.ok 2), PollEvent.complete 0 (.ok 1)]).data = some 1
    ∧ (runPoller [PollEvent.tick, PollEvent.tick,
      PollEvent.complete 1 (.ok 2), PollEvent.complete 0 (.ok 1)]).data ≠ some 2 := by
  exact ⟨rfl, by decide⟩

/-- C5: the effect cleanup only calls `clearInterval`; a request still in
flight at cancellation time is not guarded, so its completion still
invokes the state setter.  On the trace "tick, cancel, completion with
payload 7" the poller records one post-cancellation `onResult`
invocation and the displayed data becomes `7`. -/
theorem completion_applies_after_cancel :
    (runPoller [PollEvent.tick, PollEvent.cancel,
      PollEvent.complete 0 (.ok 7)]).applied = [7]
    ∧ (runPoller [PollEvent.tick, PollEvent.cancel,
      PollEvent.complete 0 (.ok 7)]).data = some 7
    ∧ (runPoller [PollEvent.tick, PollEvent.cancel,
      PollEvent.complete 0 (.ok 7)]).timerActive = false := by
  exact ⟨rfl, rfl, rfl⟩

/-- Stepping lemma for the index-based dedup filter: over a suffix
`rest` of the normalized array `arr` whose view starting at index `j`
is `prev :: rest`, the filter agrees with the pairwise recursion
`dedupPairGo prev rest`. -/
theorem dedup_filter_aux (rest : List GeoPoint) :
    ∀ (arr : List GeoPoint) (prev : GeoPoint) (j : ℕ),
      (∀ k, arr[j + k]? = (prev :: rest)[k]?) →
      ((List.enumFrom (j + 1) rest).filter (fun ip => keepIndex arr ip.1 ip.2)).map Prod.snd
        = dedupPairGo prev rest := by
  induction rest with
  | nil => intro arr prev j h; rfl
  | cons c rest ih =>
    intro arr prev j h
    have hj : arr[j]? = some prev := by simpa using h 0
    have hstep : ∀ k, arr[j + 1 + k]? = (c :: rest)[k]? := by
      intro k
      have h1 := h (k + 1)
      have h2 : j + (k + 1) = j + 1 + k := by omega
      rw [h2] at h1
      simpa using h1
    have hk : keepIndex arr (j + 1) c = !nearEps prev c := by
      simp [keepIndex, hj]
    have henum : List.enumFrom (j + 1) (c :: rest)
        = (j + 1, c) :: List.enumFrom (j + 1 + 1) rest := rfl
    rw [henum, List.filter_cons]
    cases hnear : nearEps prev c
    · rw [hk, hnear]
      simp only [Bool.not_false, if_pos, List.map_cons]
      simp only [dedupPairGo, hnear, Bool.false_eq_true, if_neg]
      exact congrArg (c :: ·) (ih arr c (j + 1) hstep)
    · rw [hk, hnear]
      simp only [Bool.not_true, Bool.false_eq_true, if_neg]
      simp only [dedupPairGo, hnear, if_pos]
      exact ih arr c (j + 1) hstep

/-- The index-based filter of the source equals the pairwise recursion:
element `i > 0` of the normalized array is kept exactly when it is not
epsilon-close to element `i - 1` of that array. -/
theorem dedupConsecutive_eq_dedupPair (arr : List GeoPoint) :
    dedupConsecutive arr = dedupPair arr := by
  cases arr with
  | nil => rfl
  | cons p l =>
    have henum : (p :: l).enum = (0, p) :: List.enumFrom (0 + 1) l := rfl
    rw [dedupConsecutive, henum, List.filter_cons]
    have hk0 : keepIndex (p :: l) 0 p = true := rfl
    rw [hk0]
    simp only [if_pos, List.map_cons]
    rw [dedupPair]
    exact congrArg (p :: ·)
      (dedup_filter_aux l (p :: l) p 0 (fun k => by simp))

/-- C1 (amended): the sanitized polyline keeps the first normalized
point and drops each later normalized point exactly when both its
coordinate deltas to the *immediately preceding normalized point* —
whether or not that point was itself kept — are below epsilon (the
filter reads `arr[i-1]` of the normalized array, not the last kept
point).  Consequently, when a run of near-duplicates drifts, the output
can retain two consecutive points that are within epsilon of each other
(see the counterexample); non-adjacent duplicates are preserved. -/
theorem sanitize_pairwise_dedup (coords : List JSValue) :
    sanitize coords = dedupPair ((coords.map normalizePoint).filterMap id) := by
  rw [sanitize]
  exact dedupConsecutive_eq_dedupPair _

unseal Rat.sub in
/-- C1 counterexample: three valid points `(0,0)`, `(9e-7, 9e-7)`,
`(-9e-7, -9e-7)`.  The second is dropped (close to the first), and the
third survives because it is compared to the *dropped* second point
(delta `1.8e-6 ≥ 1e-6`) instead of to the last kept point `(0,0)`
(delta `9e-7 < 1e-6`).  The output therefore contains two consecutive
points within epsilon of each other, contradicting both the stated drop
condition and the claimed output invariant. -/
theorem sanitize_near_duplicate_survives :
    sanitize
        [.vObj [("lat", .vNum (.fin 0)), ("lng", .vNum (.fin 0))],
         .vObj [("lat", .vNum (.fin (mkRat 9 10000000))), ("lng", .vNum (.fin (mkRat 9 10000000)))],
         .vObj [("lat", .vNum (.fin (mkRat (-9) 10000000))), ("lng", .vNum (.fin (mkRat (-9) 10000000)))]]
      = [⟨.fin 0, .fin 0⟩, ⟨.fin (mkRat (-9) 10000000), .fin (mkRat (-9) 10000000)⟩]
    ∧ nearEps ⟨.fin 0, .fin 0⟩ ⟨.fin (mkRat (-9) 10000000), .fin (mkRat (-9) 10000000)⟩ = true := by
  exact ⟨by decide, by decide⟩

/-- C9 (amended): the nested-object fallback fires only when the
resolved latitude is `undefined` *and* the resolved longitude is an
object: in that case `normalizePoint` extracts the object's `lat`/`lng`
fields and proceeds with coercion, the swap heuristic and the bounds
check on them. -/
theorem nested_lng_object_fallback (f g : List (String × JSValue))
    (hlat : resolveLat (.vObj f) = JSValue.undef)
    (hlng : resolveLng (.vObj f) = .vObj g) :
    normalizePoint (.vObj f) =
      coerceAndValidate (getField (.vObj g) "lat") (getField (.vObj g) "lng") := by
  simp only [normalizePoint, isTruthy, typeofStr]
  rw [if_neg (by decide)]
  rw [hlat, hlng]
  rw [if_pos ⟨rfl, rfl, rfl⟩]

/-- Closed instance of `nested_lng_object_fallback`: a record with no
latitude key and `lng` holding `{lat: 1, lng: 2}` normalizes to
`(1, 2)`. -/
theorem nested_lng_object_fallback_witness :
    normalizePoint
        (.vObj [("lng", .vObj [("lat", .vNum (.fin 1)), ("lng", .vNum (.fin 2))])]) =
      some ⟨.fin 1, .fin 2⟩ := by
  rw [nested_lng_object_fallback
      [("lng", .vObj [("lat", .vNum (.fin 1)), ("lng", .vNum (.fin 2))])]
      [("lat", .vNum (.fin 1)), ("lng", .vNum (.fin 2))] rfl rfl]
  rfl

/-- C9 counterexample: in the record
`{lat: 10, lng: {lat: 1, lng: 2}}` the longitude field resolves to a
nested object, yet `normalizePoint` does *not* recurse into it (the
fallback also requires the latitude to be missing): the record is
rejected with `null`, while extraction from the nested object would
have produced `(1, 2)`. -/
theorem nested_lng_not_recursed :
    resolveLng (.vObj [("lat", .vNum (.fin 10)),
        ("lng", .vObj [("lat", .vNum (.fin 1)), ("lng", .vNum (.fin 2))])])
      = .vObj [("lat", .vNum (.fin 1)), ("lng", .vNum (.fin 2))]
    ∧ normalizePoint (.vObj [("lat", .vNum (.fin 10)),
        ("lng", .vObj [("lat", .vNum (.fin 1)), ("lng", .vNum (.fin 2))])]) = none
    ∧ coerceAndValidate
        (getField (.vObj [("lat", .vNum (.fin 1)), ("lng", .vNum (.fin 2))]) "lat")
        (getField (.vObj [("lat", .vNum (.fin 1)), ("lng", .vNum (.fin 2))]) "lng")
      = some ⟨.fin 1, .fin 2⟩ :=
  ⟨rfl, rfl, rfl⟩
